import Mathlib

/-!
Shallow embedding of `full_dashboard.py`, a single-file Dash/pandas/plotly
dashboard.  Tables are lists of typed rows; pandas operations are modelled
by their documented semantics; figures and the page layout are explicit
inductive trees.  Fallible operations (Python division whose divisor may be
zero, reading a file that may be missing) return `Option`/`Except`.
-/

namespace Dashboard

/-- Row of `mapreduce_word_count.csv`: columns `word`, `total_count`. -/
structure WordRow where
  word : String
  total_count : Int
deriving DecidableEq, Repr

/-- Row of `mapreduce_daily_sentiment.csv` after the loader has applied
`pd.to_datetime` to the `date` column: the date is modelled by its parsed
ordinal value (an integer), `avg_sentiment` by a rational. -/
structure SentRow where
  date : Int
  avg_sentiment : ℚ
deriving DecidableEq, Repr

/-- Row of `mapreduce_user_stats.csv`: columns `user`, `total_engagement`,
`total_likes`. -/
structure UserRow where
  user : String
  total_engagement : Int
  total_likes : Int
deriving DecidableEq, Repr

/-- Row of `tweets_cleaned.csv`: arbitrary tweet-level fields, modelled as the
raw list of cell strings; the program only ever uses the row count and a
1000-row prefix of this table. -/
abbrev CleanedTweet := List String

/-- A plotly figure as produced by `px.bar` / `px.line`: a horizontal bar
chart carries its title and one (label, value) bar per data-frame row in row
order; a line chart carries one (x, y) vertex per data-frame row in row
order.  Styling (colors, markers, spline shape) is not modelled. -/
inductive Figure where
  | bar (title : String) (bars : List (String × Int)) : Figure
  | line (title : String) (points : List (Int × ℚ)) : Figure
deriving DecidableEq, Repr

/-- Bars of a figure (empty for a line chart). -/
def barsOf : Figure → List (String × Int)
  | Figure.bar _ bs => bs
  | Figure.line _ _ => []

/-- Vertices of a figure (empty for a bar chart). -/
def pointsOf : Figure → List (Int × ℚ)
  | Figure.bar _ _ => []
  | Figure.line _ ps => ps

/-- Sorting by an integer key, ascending; models
`DataFrame.sort_values(by=key, ascending=True)` (tie order is not relied on
anywhere in the program). -/
def sortByKey (key : α → Int) (l : List α) : List α :=
  List.insertionSort (fun a b => key a ≤ key b) l

/-- pandas `DataFrame.head(n)`: returns a new frame holding the first `n`
rows and never modifies the receiver.  The result pair is
(returned frame, receiver after the call). -/
def dfHead (n : Nat) (df : List α) : List α × List α :=
  (df.take n, df)

/-- pandas `DataFrame.sort_values(by=key, ascending, inplace)`: returns the
rows reordered by the key; with `inplace=False` (the default, used by every
call in the source) the receiver is left unchanged, with `inplace=True` the
receiver itself would become the sorted frame.  The result pair is
(returned frame, receiver after the call). -/
def sort_values (key : α → Int) (ascending : Bool) (inplace : Bool)
    (df : List α) : List α × List α :=
  let s := if ascending then sortByKey key df else (sortByKey key df).reverse
  (s, if inplace then s else df)

/-- `create_word_count_chart(df)`:
`top_words = df.head(20).sort_values(by='total_count', ascending=True)` then
`px.bar(top_words, x='total_count', y='word', orientation='h', title=...)`.
The second component is the argument frame after the call (pandas `head` and
non-inplace `sort_values` leave it untouched). -/
def create_word_count_chart (df : List WordRow) : Figure × List WordRow :=
  let (h20, df1) := dfHead 20 df
  let (top_words, _h21) := sort_values (fun r => r.total_count) true false h20
  (Figure.bar "Top 20 Most Frequent Words (MapReduce 1)"
    (top_words.map (fun r => (r.word, r.total_count))), df1)

/-- `create_sentiment_line_chart(df)`:
`px.line(df, x='date', y='avg_sentiment', title=..., line_shape='spline')`
followed by `fig.update_traces(...)` which only restyles.  plotly express
places one vertex per data-frame row, in row order: it does not sort the
rows by x.  The second component is the argument frame after the call. -/
def create_sentiment_line_chart (df : List SentRow) : Figure × List SentRow :=
  (Figure.line "Daily Average Sentiment Trend (MapReduce 2)"
    (df.map (fun r => (r.date, r.avg_sentiment))), df)

/-- `create_user_engagement_chart(df)`:
`top_users = df.head(10).sort_values(by='total_engagement', ascending=True)`
then `px.bar(top_users, x='total_engagement', y='user', orientation='h')`.
The second component is the argument frame after the call. -/
def create_user_engagement_chart (df : List UserRow) : Figure × List UserRow :=
  let (h10, df1) := dfHead 10 df
  let (top_users, _h11) := sort_values (fun r => r.total_engagement) true false h10
  (Figure.bar "Top 10 Most Engaged Users (MapReduce 3)"
    (top_users.map (fun r => (r.user, r.total_engagement))), df1)

/-- Rounding half-to-even of a rational to an integer, the rule used by
Python's built-in `round`. -/
def roundHalfEven (q : ℚ) : Int :=
  let n := ⌊q⌋
  let frac := q - n
  if frac < 1 / 2 then n
  else if 1 / 2 < frac then n + 1
  else if n % 2 = 0 then n else n + 1

/-- Python `round(q, 2)`: round half-to-even at two decimal places. -/
def pyRound2 (q : ℚ) : ℚ :=
  (roundHalfEven (q * 100) : ℚ) / 100

/-- Sum of the `total_likes` column of the user-stats table, as computed by
`user_stats_df['total_likes'].sum()`. -/
def total_likes_sum (users : List UserRow) : Int :=
  (users.map (fun r => r.total_likes)).sum

/-- A Python float value as it can arise from true division: a finite value
(idealised as a rational) or one of the non-finite float64 values `inf`,
`-inf`, `nan`. -/
inductive PyFloat where
  | val (q : ℚ) : PyFloat
  | inf : PyFloat
  | negInf : PyFloat
  | nan : PyFloat
deriving DecidableEq, Repr

/-- A Python number as it can appear as the numerator at line 75: pandas
`Series.sum()` over a non-empty int64 column returns a numpy int64 scalar,
while over an empty column it returns the plain Python int `0`.  Which one
it is decides the semantics of a subsequent division by zero. -/
inductive PyNum where
  | npInt (v : Int) : PyNum
  | pyInt (v : Int) : PyNum
deriving DecidableEq, Repr

/-- `user_stats_df['total_likes'].sum()`: a numpy int64 scalar holding the
column sum when the frame is non-empty, the Python int `0` when it is
empty. -/
def pandas_sum (users : List UserRow) : PyNum :=
  match users with
  | [] => PyNum.pyInt 0
  | _ :: _ => PyNum.npInt (total_likes_sum users)

/-- Python true division `x / n` for the operands of line 75.  A plain
Python int divided by zero raises `ZeroDivisionError` (modelled as `none`);
a numpy scalar divided by zero instead returns a non-finite float64 under
numpy's default errstate (a `RuntimeWarning`, not an exception): `inf` for a
positive numerator, `-inf` for a negative one, `nan` for `0 / 0`.  Nonzero
divisors give the exact quotient, idealised as a rational. -/
def pyTrueDiv (x : PyNum) (n : Nat) : Option PyFloat :=
  match x with
  | PyNum.pyInt v =>
    if n = 0 then none else some (PyFloat.val ((v : ℚ) / (n : ℚ)))
  | PyNum.npInt v =>
    if n = 0 then
      if 0 < v then some PyFloat.inf
      else if v < 0 then some PyFloat.negInf
      else some PyFloat.nan
    else some (PyFloat.val ((v : ℚ) / (n : ℚ)))

/-- Python `round(x, 2)` on a float: half-to-even at two decimal places on
finite values; `round` returns `inf`, `-inf` and `nan` unchanged. -/
def pyRoundF2 (x : PyFloat) : PyFloat :=
  match x with
  | PyFloat.val q => PyFloat.val (pyRound2 q)
  | x => x

/-- A Dash html node.  `h3num` is an `html.H3` whose text is a formatted
finite number; it is modelled by the number displayed.  `h3nf` is an
`html.H3` whose text is the display of a non-finite float (`inf`, `-inf` or
`nan`).  `h3s` is an `html.H3` with plain text.  Inline styles are not
modelled. -/
inductive Html where
  | div (className : String) (children : List Html) : Html
  | h1 (text : String) : Html
  | h2 (text : String) : Html
  | h3s (text : String) : Html
  | h3num (value : ℚ) : Html
  | h3nf (x : PyFloat) : Html
  | p (text : String) : Html
  | hr : Html
  | graph (fig : Figure) : Html

/-- The `html.H3(f"...")` stat heading displaying `avg_likes`: a formatted
finite number, or the text `inf` / `-inf` / `nan` for a non-finite float. -/
def avgHeading : PyFloat → Html
  | PyFloat.val q => Html.h3num q
  | x => Html.h3nf x

/-- `create_summary_card()`:
`total_tweets = len(cleaned_tweets_df)`,
`unique_users = user_stats_df.shape[0]`,
`avg_likes = round(user_stats_df['total_likes'].sum() / total_tweets, 2)`,
then a `row` div of three `four columns` stat blocks.  The division can
raise (`ZeroDivisionError` when the sum is a Python int and the total tweet
count is 0), so the card is an `Option`; `none` models the uncaught
exception.  When the sum is a numpy scalar and the count is 0, the division
yields a non-finite float, `round` keeps it, and the card renders it. -/
def create_summary_card (cleaned_tweets_df : List CleanedTweet)
    (user_stats_df : List UserRow) : Option Html :=
  let total_tweets := cleaned_tweets_df.length
  let unique_users := user_stats_df.length
  match (pyTrueDiv (pandas_sum user_stats_df) total_tweets).map pyRoundF2 with
  | none => none
  | some avg_likes =>
    some (Html.div "row" [
      Html.div "four columns" [Html.h3num (total_tweets : ℚ),
        Html.p "Total Tweets Processed"],
      Html.div "four columns" [Html.h3num (unique_users : ℚ),
        Html.p "Unique Users Analyzed"],
      Html.div "four columns" [avgHeading avg_likes,
        Html.p "Avg. Likes per Tweet"]])

/-- The five module-level tables bound at the end of the loading block. -/
structure AppData where
  word_count_df : List WordRow
  daily_sentiment_df : List SentRow
  user_stats_df : List UserRow
  cleaned_tweets_df : List CleanedTweet
  emotions_sample_df : List CleanedTweet
deriving DecidableEq, Repr

/-- `app.layout`: header, key-metrics heading, summary card, separator, a
two-column row (word-count chart | user-engagement chart), separator, a
full-width row (sentiment line chart).  Returns the page (or `none` when the
summary card's division fails, in which case layout construction crashes and
no page exists) together with the five tables after all builder calls. -/
def build_layout (st : AppData) : Option Html × AppData :=
  let (fig_wc, wc_after) := create_word_count_chart st.word_count_df
  let (fig_ue, us_after) := create_user_engagement_chart st.user_stats_df
  let (fig_se, ds_after) := create_sentiment_line_chart st.daily_sentiment_df
  let st_after : AppData :=
    ⟨wc_after, ds_after, us_after, st.cleaned_tweets_df, st.emotions_sample_df⟩
  match create_summary_card st.cleaned_tweets_df st.user_stats_df with
  | none => (none, st_after)
  | some card =>
    (some (Html.div "page" [
      Html.h1 "Social Media Analysis Dashboard",
      Html.h2 "Key Metrics Summary",
      card,
      Html.hr,
      Html.div "row" [
        Html.div "six columns" [Html.h3s "Text Analysis", Html.graph fig_wc],
        Html.div "six columns" [Html.h3s "User Performance", Html.graph fig_ue]],
      Html.hr,
      Html.div "row" [
        Html.div "twelve columns" [Html.h3s "Time-Series Analysis",
          Html.graph fig_se]]]), st_after)

/-- The files present in the working directory at startup: for each of the
four CSV names read by the loader, either its parsed contents or `none` when
the file is missing.  (The sentiment table is carried with its `date` column
already in parsed form; the loader's `pd.to_datetime` step is the identity on
this representation.) -/
structure Fs where
  word_count : Option (List WordRow)
  daily_sentiment : Option (List SentRow)
  user_stats : Option (List UserRow)
  tweets_cleaned : Option (List CleanedTweet)
deriving Repr

/-- Diagnostic printed by the `except FileNotFoundError` handler, which names
the offending file via the exception text. -/
def errMsg (name : String) : String :=
  "ERROR: A required CSV file was not found: " ++ name

/-- The loading block: reads `mapreduce_word_count.csv`,
`mapreduce_daily_sentiment.csv`, `mapreduce_user_stats.csv`,
`tweets_cleaned.csv`, then re-reads `tweets_cleaned.csv` truncated with
`.head(1000)`, and parses the sentiment date column.  The first missing file
aborts the block with the printed diagnostic naming that file (`exit()` in
the handler). -/
def load (fs : Fs) : Except String AppData :=
  match fs.word_count with
  | none => Except.error (errMsg "mapreduce_word_count.csv")
  | some wc =>
    match fs.daily_sentiment with
    | none => Except.error (errMsg "mapreduce_daily_sentiment.csv")
    | some ds =>
      match fs.user_stats with
      | none => Except.error (errMsg "mapreduce_user_stats.csv")
      | some us =>
        match fs.tweets_cleaned with
        | none => Except.error (errMsg "tweets_cleaned.csv")
        | some ct =>
          match fs.tweets_cleaned with
          | none => Except.error (errMsg "tweets_cleaned.csv")
          | some ct2 =>
            Except.ok ⟨wc, ds, us, ct, ct2.take 1000⟩

/-- Name of the first file the loader fails to read, if any. -/
def firstMissing (fs : Fs) : Option String :=
  match fs.word_count with
  | none => some "mapreduce_word_count.csv"
  | some _ =>
    match fs.daily_sentiment with
    | none => some "mapreduce_daily_sentiment.csv"
    | some _ =>
      match fs.user_stats with
      | none => some "mapreduce_user_stats.csv"
      | some _ =>
        match fs.tweets_cleaned with
        | none => some "tweets_cleaned.csv"
        | some _ => none

/-- The page the started server renders: `none` when loading aborted the
process (missing file) or when layout construction crashed, in which case no
web server serves a dashboard. -/
def main_page (fs : Fs) : Option Html :=
  match load fs with
  | Except.error _ => none
  | Except.ok st => (build_layout st).1

/-- The three numbers shown by a summary card: reads the values of the three
numeric `H3` stat headings of the `row`/`four columns` tree. -/
def cardStats : Html → Option (ℚ × ℚ × ℚ)
  | Html.div _ [Html.div _ [Html.h3num a, _],
                Html.div _ [Html.h3num b, _],
                Html.div _ [Html.h3num c, _]] => some (a, b, c)
  | _ => none

/-- Whether a summary card's third stat block displays a non-finite average
(`inf`, `-inf` or `nan`). -/
def cardShowsNonfiniteAvg : Html → Bool
  | Html.div _ [Html.div _ [Html.h3num _, _],
                Html.div _ [Html.h3num _, _],
                Html.div _ [Html.h3nf _, _]] => true
  | _ => false

/-- Sorting by a key is a permutation of the input. -/
theorem sortByKey_perm (key : α → Int) (l : List α) :
    List.Perm (sortByKey key l) l :=
  List.perm_insertionSort _ l

/-- Sorting by a key yields a list sorted by that key. -/
theorem sortByKey_sorted (key : α → Int) (l : List α) :
    List.Sorted (fun a b => key a ≤ key b) (sortByKey key l) := by
  haveI : IsTotal α (fun a b => key a ≤ key b) :=
    ⟨fun a b => Int.le_total (key a) (key b)⟩
  haveI : IsTrans α (fun a b => key a ≤ key b) :=
    ⟨fun _ _ _ h1 h2 => le_trans h1 h2⟩
  exact List.sorted_insertionSort _ l

/-- The key column of a key-sorted list is sorted. -/
theorem sortByKey_map_sorted (key : α → Int) (l : List α) :
    List.Sorted (fun a b => a ≤ b) ((sortByKey key l).map key) :=
  List.Pairwise.map key (fun _ _ h => h) (sortByKey_sorted key l)

/-- Concrete word-count table with 21 rows, whose 21st row has the largest
count of all. -/
def wcEx : List WordRow :=
  (List.range 20).map (fun i => ⟨"w" ++ toString i, (i : Int)⟩) ++ [⟨"big", 1000⟩]

/-- Concrete user-stats table with 11 rows, whose 11th row has the largest
engagement of all. -/
def usEx : List UserRow :=
  (List.range 10).map (fun i => ⟨"u" ++ toString i, (i : Int), (i : Int)⟩) ++
    [⟨"star", 1000, 1000⟩]

/-- C1: for every word-count table with at least 20 rows, the word-count
chart has exactly 20 bars, the bars are sorted ascending by `total_count`,
and they are exactly (a permutation of) the first 20 rows of the table in
its existing order — so no row after the 20th ever contributes a bar, even
when its count exceeds some of the shown 20. -/
theorem create_word_count_chart_first20_sorted (df : List WordRow)
    (h : 20 ≤ df.length) :
    (barsOf (create_word_count_chart df).1).length = 20 ∧
    List.Sorted (fun a b => a ≤ b)
      ((barsOf (create_word_count_chart df).1).map Prod.snd) ∧
    List.Perm (barsOf (create_word_count_chart df).1)
      ((df.take 20).map (fun r => (r.word, r.total_count))) := by
  have hb : barsOf (create_word_count_chart df).1 =
      (sortByKey (fun r => r.total_count) (df.take 20)).map
        (fun r => (r.word, r.total_count)) := rfl
  have hperm : List.Perm (barsOf (create_word_count_chart df).1)
      ((df.take 20).map (fun r => (r.word, r.total_count))) := by
    rw [hb]
    exact (sortByKey_perm _ _).map _
  refine ⟨?_, ?_, hperm⟩
  · rw [hperm.length_eq, List.length_map, List.length_take]
    exact Nat.min_eq_left h
  · rw [hb, List.map_map]
    exact sortByKey_map_sorted (fun r => r.total_count) (df.take 20)

/-- Witness for C1 at a concrete 21-row table. -/
theorem create_word_count_chart_first20_sorted_witness :
    (barsOf (create_word_count_chart wcEx).1).length = 20 :=
  (create_word_count_chart_first20_sorted wcEx (by decide)).1

/-- C5: for every user-stats table with at least 10 rows, the engagement
chart has exactly 10 bars, sorted ascending by `total_engagement`, and they
are exactly (a permutation of) the first 10 rows of the table in its
existing order. -/
theorem create_user_engagement_chart_first10_sorted (df : List UserRow)
    (h : 10 ≤ df.length) :
    (barsOf (create_user_engagement_chart df).1).length = 10 ∧
    List.Sorted (fun a b => a ≤ b)
      ((barsOf (create_user_engagement_chart df).1).map Prod.snd) ∧
    List.Perm (barsOf (create_user_engagement_chart df).1)
      ((df.take 10).map (fun r => (r.user, r.total_engagement))) := by
  have hb : barsOf (create_user_engagement_chart df).1 =
      (sortByKey (fun r => r.total_engagement) (df.take 10)).map
        (fun r => (r.user, r.total_engagement)) := rfl
  have hperm : List.Perm (barsOf (create_user_engagement_chart df).1)
      ((df.take 10).map (fun r => (r.user, r.total_engagement))) := by
    rw [hb]
    exact (sortByKey_perm _ _).map _
  refine ⟨?_, ?_, hperm⟩
  · rw [hperm.length_eq, List.length_map, List.length_take]
    exact Nat.min_eq_left h
  · rw [hb, List.map_map]
    exact sortByKey_map_sorted (fun r => r.total_engagement) (df.take 10)

/-- Witness for C5 at a concrete 11-row table. -/
theorem create_user_engagement_chart_first10_sorted_witness :
    (barsOf (create_user_engagement_chart usEx).1).length = 10 :=
  (create_user_engagement_chart_first10_sorted usEx (by decide)).1

/-- C10: on a word-count table with fewer than 20 rows and a user-stats
table with fewer than 10 rows, the chart builders still succeed and produce
exactly one bar per input row (the head-N truncation and the subset sort are
total on short and empty tables). -/
theorem charts_total_on_short_tables (dfw : List WordRow) (dfu : List UserRow)
    (hw : dfw.length < 20) (hu : dfu.length < 10) :
    (barsOf (create_word_count_chart dfw).1).length = dfw.length ∧
    List.Perm (barsOf (create_word_count_chart dfw).1)
      (dfw.map (fun r => (r.word, r.total_count))) ∧
    (barsOf (create_user_engagement_chart dfu).1).length = dfu.length ∧
    List.Perm (barsOf (create_user_engagement_chart dfu).1)
      (dfu.map (fun r => (r.user, r.total_engagement))) := by
  have hw20 : dfw.take 20 = dfw := List.take_of_length_le (le_of_lt hw)
  have hu10 : dfu.take 10 = dfu := List.take_of_length_le (le_of_lt hu)
  have hbw : barsOf (create_word_count_chart dfw).1 =
      (sortByKey (fun r => r.total_count) (dfw.take 20)).map
        (fun r => (r.word, r.total_count)) := rfl
  have hbu : barsOf (create_user_engagement_chart dfu).1 =
      (sortByKey (fun r => r.total_engagement) (dfu.take 10)).map
        (fun r => (r.user, r.total_engagement)) := rfl
  have hpw : List.Perm (barsOf (create_word_count_chart dfw).1)
      (dfw.map (fun r => (r.word, r.total_count))) := by
    rw [hbw, hw20]
    exact (sortByKey_perm _ _).map _
  have hpu : List.Perm (barsOf (create_user_engagement_chart dfu).1)
      (dfu.map (fun r => (r.user, r.total_engagement))) := by
    rw [hbu, hu10]
    exact (sortByKey_perm _ _).map _
  exact ⟨by rw [hpw.length_eq, List.length_map], hpw,
    by rw [hpu.length_eq, List.length_map], hpu⟩

/-- Witness for C10 at a one-row word table and an empty user table. -/
theorem charts_total_on_short_tables_witness :
    (barsOf (create_word_count_chart [⟨"a", 5⟩]).1).length =
      ([⟨"a", 5⟩] : List WordRow).length :=
  (charts_total_on_short_tables [⟨"a", 5⟩] [] (by decide) (by decide)).1

/-- Concrete daily-sentiment table whose two rows are in descending date
order. -/
def sentEx : List SentRow := [⟨2, 0⟩, ⟨1, 0⟩]

/-- C2 counterexample: on a two-row table given in descending date order,
the line chart's x values are `[2, 1]`, which is not ascending — `px.line`
keeps the input row order and does not sort by date. -/
theorem sentiment_points_not_sorted_ce :
    (pointsOf (create_sentiment_line_chart sentEx).1).map Prod.fst = [2, 1] ∧
    ¬ List.Sorted (fun a b => a ≤ b)
      ((pointsOf (create_sentiment_line_chart sentEx).1).map Prod.fst) := by
  refine ⟨rfl, ?_⟩
  intro hs
  have h21 : (2 : Int) ≤ 1 := List.rel_of_sorted_cons hs 1 (by simp)
  exact absurd h21 (by decide)

/-- C2 (amended): the line chart has exactly one point per input row, its x
values are the input dates in input row order, and they are ascending if and
only if the input table was already sorted ascending by date. -/
theorem sentiment_points_row_order (df : List SentRow) :
    (pointsOf (create_sentiment_line_chart df).1).length = df.length ∧
    (pointsOf (create_sentiment_line_chart df).1).map Prod.fst =
      df.map (fun r => r.date) ∧
    (List.Sorted (fun a b => a ≤ b)
        ((pointsOf (create_sentiment_line_chart df).1).map Prod.fst) ↔
      List.Sorted (fun a b => a ≤ b) (df.map (fun r => r.date))) := by
  have hx : (pointsOf (create_sentiment_line_chart df).1).map Prod.fst =
      df.map (fun r => r.date) := by
    show (df.map (fun r => (r.date, r.avg_sentiment))).map Prod.fst =
      df.map (fun r => r.date)
    rw [List.map_map]
    rfl
  refine ⟨?_, hx, by rw [hx]⟩
  show (df.map (fun r => (r.date, r.avg_sentiment))).length = df.length
  rw [List.length_map]

/-- With a nonzero total tweet count the line-75 division succeeds and
yields the rounded exact quotient, whether the user-stats table is empty
(Python int sum) or non-empty (numpy scalar sum). -/
theorem pyTrueDiv_pandas_sum (users : List UserRow) (n : Nat) (hn : n ≠ 0) :
    (pyTrueDiv (pandas_sum users) n).map pyRoundF2 =
      some (PyFloat.val (pyRound2 ((total_likes_sum users : ℚ) / (n : ℚ)))) := by
  cases users with
  | nil => simp [pandas_sum, pyTrueDiv, pyRoundF2, hn, total_likes_sum]
  | cons u rest => simp [pandas_sum, pyTrueDiv, pyRoundF2, hn]

/-- C3: on a non-empty cleaned-tweets table the summary card exists and
shows the row count of the cleaned-tweets table, the row count of the
user-stats table, and `round(sum(total_likes) / total_tweet_count, 2)`. -/
theorem summary_card_formula (cleaned : List CleanedTweet)
    (users : List UserRow) (h : cleaned ≠ []) :
    ∃ card, create_summary_card cleaned users = some card ∧
      cardStats card = some ((cleaned.length : ℚ), (users.length : ℚ),
        pyRound2 ((total_likes_sum users : ℚ) / (cleaned.length : ℚ))) := by
  have hne : cleaned.length ≠ 0 := fun hc => h (List.length_eq_zero.mp hc)
  have hcard : create_summary_card cleaned users =
      some (Html.div "row" [
        Html.div "four columns" [Html.h3num ((cleaned.length : Nat) : ℚ),
          Html.p "Total Tweets Processed"],
        Html.div "four columns" [Html.h3num ((users.length : Nat) : ℚ),
          Html.p "Unique Users Analyzed"],
        Html.div "four columns"
          [Html.h3num (pyRound2 ((total_likes_sum users : ℚ) /
            (cleaned.length : ℚ))),
          Html.p "Avg. Likes per Tweet"]]) := by
    show (match (pyTrueDiv (pandas_sum users) cleaned.length).map pyRoundF2 with
      | none => none
      | some avg_likes => some (Html.div "row" [
          Html.div "four columns" [Html.h3num ((cleaned.length : Nat) : ℚ),
            Html.p "Total Tweets Processed"],
          Html.div "four columns" [Html.h3num ((users.length : Nat) : ℚ),
            Html.p "Unique Users Analyzed"],
          Html.div "four columns" [avgHeading avg_likes,
            Html.p "Avg. Likes per Tweet"]])) = _
    rw [pyTrueDiv_pandas_sum users cleaned.length hne]
    rfl
  exact ⟨_, hcard, rfl⟩

/-- Witness for C3 at a one-tweet, one-user data set. -/
theorem summary_card_formula_witness :
    ∃ card, create_summary_card [["hello"]] [⟨"u", 7, 5⟩] = some card ∧
      cardStats card = some ((([["hello"]] : List CleanedTweet).length : ℚ),
        (([⟨"u", 7, 5⟩] : List UserRow).length : ℚ),
        pyRound2 ((total_likes_sum [⟨"u", 7, 5⟩] : ℚ) /
          (([["hello"]] : List CleanedTweet).length : ℚ))) :=
  summary_card_formula [["hello"]] [⟨"u", 7, 5⟩] (by decide)

/-- C4: when the first file the loader cannot read is `name`, loading stops
with the diagnostic naming exactly that file and no page is ever served;
when all four required files are present, loading succeeds — the missing
file check is the only error path of the loader. -/
theorem load_missing_file_behavior (fs : Fs) :
    (∀ name, firstMissing fs = some name →
      load fs = Except.error (errMsg name) ∧ main_page fs = none) ∧
    (firstMissing fs = none → ∃ st, load fs = Except.ok st) := by
  rcases fs with ⟨wc, ds, us, ct⟩
  cases wc <;> cases ds <;> cases us <;> cases ct <;>
    simp [firstMissing, load, main_page, errMsg]

/-- Witness for C4: with `mapreduce_word_count.csv` missing, loading reports
that file and no page is rendered; with all four files present, loading
succeeds. -/
theorem load_missing_file_behavior_witness :
    (load ⟨none, some [], some [], some []⟩ =
        Except.error (errMsg "mapreduce_word_count.csv") ∧
      main_page ⟨none, some [], some [], some []⟩ = none) ∧
    ∃ st, load ⟨some [], some [], some [], some [["t"]]⟩ = Except.ok st :=
  ⟨(load_missing_file_behavior ⟨none, some [], some [], some []⟩).1
      "mapreduce_word_count.csv" rfl,
    (load_missing_file_behavior ⟨some [], some [], some [], some [["t"]]⟩).2 rfl⟩

/-- C6 counterexample: on empty tables the chart builders do not fail at
all — each returns a well-defined figure with zero bars (`head` of an empty
frame is empty, the sort of an empty frame is empty, and `px.bar` renders an
empty figure; nothing indexes past the available rows). -/
theorem empty_tables_charts_ce :
    (create_word_count_chart ([] : List WordRow)).1 =
      Figure.bar "Top 20 Most Frequent Words (MapReduce 1)" [] ∧
    (create_user_engagement_chart ([] : List UserRow)).1 =
      Figure.bar "Top 10 Most Engaged Users (MapReduce 3)" [] :=
  ⟨rfl, rfl⟩

/-- C6 (amended): on empty input tables every chart builder succeeds and
produces a chart with zero bars (zero points for the line chart) instead of
failing. -/
theorem empty_tables_charts_empty :
    barsOf (create_word_count_chart ([] : List WordRow)).1 = [] ∧
    barsOf (create_user_engagement_chart ([] : List UserRow)).1 = [] ∧
    pointsOf (create_sentiment_line_chart ([] : List SentRow)).1 = [] :=
  ⟨rfl, rfl, rfl⟩

/-- A numpy int64 scalar divided by zero never raises: the quotient is
`inf`, `-inf` or `nan`, each left unchanged by `round` and displayed by a
non-finite stat heading. -/
theorem pyTrueDiv_npInt_zero (v : Int) :
    ∃ x, pyTrueDiv (PyNum.npInt v) 0 = some x ∧ pyRoundF2 x = x ∧
      avgHeading x = Html.h3nf x := by
  by_cases h1 : 0 < v
  · exact ⟨PyFloat.inf, by simp [pyTrueDiv, h1], rfl, rfl⟩
  · by_cases h2 : v < 0
    · exact ⟨PyFloat.negInf, by simp [pyTrueDiv, h1, h2], rfl, rfl⟩
    · exact ⟨PyFloat.nan, by simp [pyTrueDiv, h1, h2], rfl, rfl⟩

/-- With zero cleaned tweets and a non-empty user-stats table the card is
built: the numpy-scalar division by zero produces a non-finite float shown
in the third stat block. -/
theorem create_summary_card_zero_total_nonempty_users (u : UserRow)
    (rest : List UserRow) :
    ∃ x, create_summary_card [] (u :: rest) = some (Html.div "row" [
      Html.div "four columns" [Html.h3num ((0 : Nat) : ℚ),
        Html.p "Total Tweets Processed"],
      Html.div "four columns" [Html.h3num (((u :: rest).length : Nat) : ℚ),
        Html.p "Unique Users Analyzed"],
      Html.div "four columns" [Html.h3nf x,
        Html.p "Avg. Likes per Tweet"]]) := by
  obtain ⟨x, hdiv, hround, havg⟩ := pyTrueDiv_npInt_zero (total_likes_sum (u :: rest))
  refine ⟨x, ?_⟩
  show (match (pyTrueDiv (pandas_sum (u :: rest)) (0 : Nat)).map pyRoundF2 with
    | none => none
    | some avg_likes => some (Html.div "row" [
        Html.div "four columns" [Html.h3num ((0 : Nat) : ℚ),
          Html.p "Total Tweets Processed"],
        Html.div "four columns" [Html.h3num (((u :: rest).length : Nat) : ℚ),
          Html.p "Unique Users Analyzed"],
        Html.div "four columns" [avgHeading avg_likes,
          Html.p "Avg. Likes per Tweet"]])) = _
  rw [show pandas_sum (u :: rest) =
    PyNum.npInt (total_likes_sum (u :: rest)) from rfl, hdiv]
  show some (Html.div "row" [
      Html.div "four columns" [Html.h3num ((0 : Nat) : ℚ),
        Html.p "Total Tweets Processed"],
      Html.div "four columns" [Html.h3num (((u :: rest).length : Nat) : ℚ),
        Html.p "Unique Users Analyzed"],
      Html.div "four columns" [avgHeading (pyRoundF2 x),
        Html.p "Avg. Likes per Tweet"]]) = _
  rw [hround, havg]

/-- C7 counterexample: with zero cleaned tweets but one user-stats row the
program does not crash — `user_stats_df['total_likes'].sum()` is the numpy
int64 scalar 5, dividing it by 0 returns `inf` under numpy's default
errstate, `round(inf, 2)` is `inf`, and the summary card is built showing
`inf` as the average. -/
theorem summary_card_zero_tweets_ce :
    create_summary_card ([] : List CleanedTweet) [⟨"u", 7, 5⟩] =
      some (Html.div "row" [
        Html.div "four columns" [Html.h3num ((0 : Nat) : ℚ),
          Html.p "Total Tweets Processed"],
        Html.div "four columns" [Html.h3num ((1 : Nat) : ℚ),
          Html.p "Unique Users Analyzed"],
        Html.div "four columns" [Html.h3nf PyFloat.inf,
          Html.p "Avg. Likes per Tweet"]]) := rfl

/-- C7 (amended): with an empty cleaned-tweets table the division by the
total tweet count at line 75 is unguarded, and its outcome depends on the
user-stats table: when that table is also empty the column sum is the
Python int 0, the division by zero raises, card construction crashes and no
page is built; when it is non-empty the sum is a numpy int64 scalar, the
division returns a non-finite float instead of raising, and the card and
the page are built showing that non-finite average. -/
theorem summary_card_zero_tweets_behavior (st : AppData)
    (h : st.cleaned_tweets_df = []) :
    (st.user_stats_df = [] →
      create_summary_card st.cleaned_tweets_df st.user_stats_df = none ∧
      (build_layout st).1 = none) ∧
    (st.user_stats_df ≠ [] → ∃ card,
      create_summary_card st.cleaned_tweets_df st.user_stats_df = some card ∧
      cardShowsNonfiniteAvg card = true ∧
      (build_layout st).1 ≠ none) := by
  rcases st with ⟨wc, ds, us, ct, em⟩
  dsimp only at h
  subst h
  constructor
  · intro hu
    dsimp only at hu
    subst hu
    have hnone : create_summary_card ([] : List CleanedTweet)
        ([] : List UserRow) = none := rfl
    exact ⟨hnone, by simp [build_layout, hnone]⟩
  · intro hu
    cases us with
    | nil => exact absurd rfl hu
    | cons u rest =>
      obtain ⟨x, hcard⟩ := create_summary_card_zero_total_nonempty_users u rest
      refine ⟨_, hcard, rfl, ?_⟩
      simp [build_layout, hcard]

/-- Witness for C7 (amended) at the all-empty data set (crash branch) and
at a one-user data set with no cleaned tweets (non-finite-average branch). -/
theorem summary_card_zero_tweets_behavior_witness :
    (create_summary_card (AppData.mk [] [] [] [] []).cleaned_tweets_df
        (AppData.mk [] [] [] [] []).user_stats_df = none ∧
      (build_layout (AppData.mk [] [] [] [] [])).1 = none) ∧
    ∃ card,
      create_summary_card
          (AppData.mk [] [] [⟨"u", 7, 5⟩] [] []).cleaned_tweets_df
          (AppData.mk [] [] [⟨"u", 7, 5⟩] [] []).user_stats_df = some card ∧
      cardShowsNonfiniteAvg card = true ∧
      (build_layout (AppData.mk [] [] [⟨"u", 7, 5⟩] [] [])).1 ≠ none :=
  ⟨(summary_card_zero_tweets_behavior (AppData.mk [] [] [] [] []) rfl).1 rfl,
    (summary_card_zero_tweets_behavior
      (AppData.mk [] [] [⟨"u", 7, 5⟩] [] []) rfl).2 (List.cons_ne_nil _ _)⟩

/-- C8: building the page (the summary card and all three charts) leaves
every loaded table exactly as it was at the end of loading — `head` and
non-inplace `sort_values` return new frames and the builders never write to
the loaded tables. -/
theorem build_layout_preserves_tables (st : AppData) :
    (build_layout st).2 = st := by
  rcases st with ⟨wc, ds, us, ct, em⟩
  cases hc : create_summary_card ct us <;>
    simp [build_layout, hc, create_word_count_chart,
      create_user_engagement_chart, create_sentiment_line_chart, dfHead,
      sort_values]

/-- C9: the 1000-row prefix table (`emotions_sample_df`) is dead after
loading — the rendered page is the same for every value of that table, so
the page of the program equals the page of the program with the prefix load
removed. -/
theorem layout_ignores_emotions_sample (wc : List WordRow)
    (ds : List SentRow) (us : List UserRow) (ct : List CleanedTweet)
    (em em2 : List CleanedTweet) :
    (build_layout (AppData.mk wc ds us ct em)).1 =
      (build_layout (AppData.mk wc ds us ct em2)).1 := by
  cases hc : create_summary_card ct us <;> simp [build_layout, hc]

end Dashboard
